import Mathlib

/-!
Shallow embedding of the Bulwark gateway core (crates `host`, `wasm-host`,
`ext-filter`) and proofs about the claims of its specification.

The remote key-value store is an external collaborator; it is modelled as an
explicit state value (`RedisState`) together with a spy log of the commands the
gateway issues to it.  The Lua scripts of the two `ScriptRegistry::default`
implementations are embedded as pure functions on that state, and the host
capability functions of `context.rs` are embedded as functions that first run
the permission guard, then the argument checks, then touch the store, in the
order of the source.
-/

set_option autoImplicit false

deriving instance DecidableEq for Except

namespace Bulwark

/-! ### Association-list store primitives -/

def alistGet {α : Type} : List (String × α) → String → Option α
  | [], _ => none
  | (k', v) :: rest, k => if k' = k then some v else alistGet rest k

def alistSet {α : Type} : List (String × α) → String → α → List (String × α)
  | [], k, v => [(k, v)]
  | (k', v') :: rest, k, v =>
    if k' = k then (k, v) :: rest else (k', v') :: alistSet rest k v

def alistDel {α : Type} : List (String × α) → String → List (String × α)
  | [], _ => []
  | (k', v') :: rest, k =>
    if k' = k then alistDel rest k else (k', v') :: alistDel rest k

theorem alistGet_set {α : Type} (kv : List (String × α)) (k k' : String) (v : α) :
    alistGet (alistSet kv k v) k' = if k = k' then some v else alistGet kv k' := by
  induction kv with
  | nil => simp [alistGet, alistSet]
  | cons hd tl ih =>
    obtain ⟨k0, v0⟩ := hd
    by_cases h0 : k0 = k
    · subst h0
      by_cases h1 : k0 = k'
      · subst h1; simp [alistGet, alistSet]
      · simp [alistGet, alistSet, h1]
    · by_cases h1 : k0 = k'
      · subst h1
        have hkk : ¬ k = k0 := fun h => h0 h.symm
        simp [alistGet, alistSet, h0, hkk, ih]
      · simp [alistGet, alistSet, h0, h1, ih]

theorem alistGet_del {α : Type} (kv : List (String × α)) (k k' : String) :
    alistGet (alistDel kv k) k' = if k = k' then none else alistGet kv k' := by
  induction kv with
  | nil => simp [alistGet, alistDel]
  | cons hd tl ih =>
    obtain ⟨k0, v0⟩ := hd
    by_cases h0 : k0 = k
    · subst h0
      by_cases h1 : k0 = k'
      · subst h1; simp [alistGet, alistDel, ih]
      · simp [alistGet, alistDel, h1, ih]
    · by_cases h1 : k0 = k'
      · subst h1
        have hkk : ¬ k = k0 := fun h => h0 h.symm
        simp [alistGet, alistDel, h0, hkk, ih]
      · simp [alistGet, alistDel, h0, h1, ih]

/-! ### The remote-state error taxonomy (`bulwark.plugin.redis.Error`) -/

inductive RedisError where
  | Remote (message : String)
  | TypeError
  | InvalidArgument (message : String)
  | Permission (key : String)
  deriving DecidableEq

/-- Rust's `str::starts_with`, embedded structurally over the character
sequences of the two strings. -/
def strStartsWith (s pre : String) : Bool :=
  charsStartWith s.data pre.data
where
  charsStartWith : List Char → List Char → Bool
    | _, [] => true
    | [], _ :: _ => false
    | c :: cs, d :: ds => c == d && charsStartWith cs ds

/-- `verify_redis_prefixes` of `crates/host/src/context.rs`: fails with
`Permission(key)` unless some allowed key prefix starts the key. -/
def verify_redis_prefixes (allowedKeyPrefixes : List String) (key : String) :
    Except RedisError Unit :=
  if allowedKeyPrefixes.any (fun p => strStartsWith key p) then
    Except.ok ()
  else
    Except.error (RedisError.Permission key)

/-! ### The spy log of commands issued to the external store -/

inductive RedisCmd where
  | get (key : String)
  | set (key : String) (value : List UInt8)
  | del (keys : List String)
  | incrBy (key : String) (delta : Int)
  | sadd (key : String) (values : List String)
  | srem (key : String) (values : List String)
  | smembers (key : String)
  | expire (key : String) (ttl : Int)
  | expireAt (key : String) (unixTime : Int)
  | evalScript (scriptName : String) (key : String)
  deriving DecidableEq

/-- The external store's state: numeric keyspace used by the Lua scripts,
byte values for `get`/`set`, string sets, the TTL bookkeeping of `expireat`,
and the spy log of every command the gateway issued. -/
structure RedisState where
  nums : List (String × Int)
  raw : List (String × List UInt8)
  sets : List (String × List String)
  ttl : List (String × Int)
  issued : List RedisCmd
  deriving DecidableEq

def RedisState.empty : RedisState := ⟨[], [], [], [], []⟩

/-! ### The Lua scripts of `host/src/context.rs` (`ScriptRegistry::default`) -/

def rlCounterKey (k : String) : String := "bulwark:rl:" ++ k

def rlExpirationKey (k : String) : String := "bulwark:rl:" ++ k ++ ":exp"

/-- The `increment_rate_limit` script of `context.rs`: if the expiration key is
absent or the timestamp is strictly past it, reset the counter to 0 and record
`timestamp + window` as the new expiration (with TTLs one second past it);
then `INCRBY` the counter by the delta and return `{attempts, expiration}`. -/
def increment_rate_limit_script (st : RedisState) (k : String)
    (incrementDelta expirationWindow timestamp : Int) : (Int × Int) × RedisState :=
  let counterKey := rlCounterKey k
  let expirationKey := rlExpirationKey k
  let nextExpiration := timestamp + expirationWindow
  let reset : Int × RedisState :=
    (nextExpiration,
      { st with
        nums := alistSet (alistSet st.nums expirationKey nextExpiration) counterKey 0,
        ttl := alistSet (alistSet st.ttl expirationKey (nextExpiration + 1))
          counterKey (nextExpiration + 1) })
  let step : Int × RedisState :=
    match alistGet st.nums expirationKey with
    | some e => if timestamp > e then reset else (e, st)
    | none => reset
  let attempts := (alistGet step.2.nums counterKey).getD 0 + incrementDelta
  ((attempts, step.1), { step.2 with nums := alistSet step.2.nums counterKey attempts })

/-- The `check_rate_limit` script of `context.rs`.  Both locals are defaulted
with `or 0` in the Lua source, so the `not attempts`/`not expiration` parts of
the guard are unreachable and the guard reduces to the timestamp comparison.
When the window has lapsed, both keys are deleted and `{0, 0}` is returned. -/
def check_rate_limit_script (st : RedisState) (k : String) (timestamp : Int) :
    (Int × Int) × RedisState :=
  let counterKey := rlCounterKey k
  let expirationKey := rlExpirationKey k
  let attempts := (alistGet st.nums counterKey).getD 0
  let expiration := (alistGet st.nums expirationKey).getD 0
  if timestamp > expiration then
    ((0, 0),
      { st with
        nums := alistDel (alistDel st.nums counterKey) expirationKey,
        ttl := alistDel (alistDel st.ttl counterKey) expirationKey })
  else
    ((attempts, expiration), st)

def bkGenerationKey (k : String) : String := "bulwark:bk:g:" ++ k

def bkSuccessKey (k : String) : String := "bulwark:bk:s:" ++ k

def bkFailureKey (k : String) : String := "bulwark:bk:f:" ++ k

def bkConsecSuccessKey (k : String) : String := "bulwark:bk:cs:" ++ k

def bkConsecFailureKey (k : String) : String := "bulwark:bk:cf:" ++ k

def bkExpirationKey (k : String) : String := "bulwark:bk:" ++ k ++ ":exp"

/-- The `increment_breaker` script of `context.rs`.  The generation counter is
incremented by one unconditionally; the success branch is taken exactly when
`success_delta > 0`, the failure branch otherwise (including when both deltas
are zero, in which case the failure branch still sets the consecutive-success
counter to 0). -/
def increment_breaker_script (st : RedisState) (k : String)
    (successDelta failureDelta expirationWindow timestamp : Int) :
    (Int × Int × Int × Int × Int × Int) × RedisState :=
  let expiration := timestamp + expirationWindow
  let generation := (alistGet st.nums (bkGenerationKey k)).getD 0 + 1
  let st1 : RedisState := { st with nums := alistSet st.nums (bkGenerationKey k) generation }
  let branch : (Int × Int × Int × Int) × RedisState :=
    if successDelta > 0 then
      let successes := (alistGet st1.nums (bkSuccessKey k)).getD 0 + successDelta
      let failures := (alistGet st1.nums (bkFailureKey k)).getD 0
      let consecSuccesses := (alistGet st1.nums (bkConsecSuccessKey k)).getD 0 + successDelta
      ((successes, failures, consecSuccesses, 0),
        { st1 with nums :=
            alistSet (alistSet (alistSet st1.nums (bkSuccessKey k) successes)
              (bkConsecSuccessKey k) consecSuccesses) (bkConsecFailureKey k) 0 })
    else
      let successes := (alistGet st1.nums (bkSuccessKey k)).getD 0
      let failures := (alistGet st1.nums (bkFailureKey k)).getD 0 + failureDelta
      let consecFailures := (alistGet st1.nums (bkConsecFailureKey k)).getD 0 + failureDelta
      ((successes, failures, 0, consecFailures),
        { st1 with nums :=
            alistSet (alistSet (alistSet st1.nums (bkFailureKey k) failures)
              (bkConsecSuccessKey k) 0) (bkConsecFailureKey k) consecFailures })
  let st2 : RedisState := { branch.2 with
    nums := alistSet branch.2.nums (bkExpirationKey k) expiration }
  let newTtl :=
    alistSet (alistSet (alistSet (alistSet (alistSet (alistSet st2.ttl
      (bkGenerationKey k) (expiration + 1))
      (bkSuccessKey k) (expiration + 1))
      (bkFailureKey k) (expiration + 1))
      (bkConsecSuccessKey k) (expiration + 1))
      (bkConsecFailureKey k) (expiration + 1))
      (bkExpirationKey k) (expiration + 1)
  let st3 : RedisState := { st2 with ttl := newTtl }
  ((generation, branch.1.1, branch.1.2.1, branch.1.2.2.1, branch.1.2.2.2, expiration), st3)

/-- The `check_breaker` script of `context.rs`.  The generation local is
defaulted with `or 0`, so the guard reduces to `generation <= 0`; in that case
all six keys are deleted and all-zero results are returned.  The timestamp
argument is passed by the host but unused by the script. -/
def check_breaker_script (st : RedisState) (k : String) (_timestamp : Int) :
    (Int × Int × Int × Int × Int × Int) × RedisState :=
  let generation := (alistGet st.nums (bkGenerationKey k)).getD 0
  if generation ≤ 0 then
    ((0, 0, 0, 0, 0, 0),
      { st with
        nums := alistDel (alistDel (alistDel (alistDel (alistDel (alistDel st.nums
          (bkGenerationKey k)) (bkSuccessKey k)) (bkFailureKey k))
          (bkConsecSuccessKey k)) (bkConsecFailureKey k)) (bkExpirationKey k) })
  else
    ((generation,
      (alistGet st.nums (bkSuccessKey k)).getD 0,
      (alistGet st.nums (bkFailureKey k)).getD 0,
      (alistGet st.nums (bkConsecSuccessKey k)).getD 0,
      (alistGet st.nums (bkConsecFailureKey k)).getD 0,
      (alistGet st.nums (bkExpirationKey k)).getD 0), st)

/-! ### The Lua scripts of `wasm-host/src/plugin.rs` (`ScriptRegistry::default`)

This older registry names the rate-limit counter `rl:<k>`, but its increment
script stores the expiration under the `:ex` suffix while its check script
reads the `:exp` suffix. -/

/-- The `increment_rate_limit` script of `wasm-host/src/plugin.rs`; its
expiration key is the counter key with the `:ex` suffix. -/
def wh_increment_rate_limit_script (st : RedisState) (k : String)
    (incrementDelta expirationWindow timestamp : Int) : (Int × Int) × RedisState :=
  let counterKey := "rl:" ++ k
  let expirationKey := counterKey ++ ":ex"
  let nextExpiration := timestamp + expirationWindow
  let reset : Int × RedisState :=
    (nextExpiration,
      { st with
        nums := alistSet (alistSet st.nums expirationKey nextExpiration) counterKey 0,
        ttl := alistSet (alistSet st.ttl expirationKey (nextExpiration + 1))
          counterKey (nextExpiration + 1) })
  let step : Int × RedisState :=
    match alistGet st.nums expirationKey with
    | some e => if timestamp > e then reset else (e, st)
    | none => reset
  let attempts := (alistGet step.2.nums counterKey).getD 0 + incrementDelta
  ((attempts, step.1), { step.2 with nums := alistSet step.2.nums counterKey attempts })

/-- The `check_rate_limit` script of `wasm-host/src/plugin.rs`; its expiration
key is the counter key with the `:exp` suffix.  The locals are not defaulted
here, so absent keys and lapsed windows yield a `{nil, nil}` reply. -/
def wh_check_rate_limit_script (st : RedisState) (k : String) (timestamp : Int) :
    (Option Int × Option Int) × RedisState :=
  let counterKey := "rl:" ++ k
  let expirationKey := counterKey ++ ":exp"
  match alistGet st.nums counterKey with
  | none => ((none, none), st)
  | some attempts =>
    match alistGet st.nums expirationKey with
    | none => ((none, none), st)
    | some expiration =>
      if timestamp > expiration then ((none, none), st)
      else ((some attempts, some expiration), st)

/-! ### The host capability surface of `host/src/context.rs`

Each function first runs `verify_redis_prefixes`, then (where applicable) the
argument checks, then requires a configured connection pool, and only then
issues anything to the store — mirroring the order of the source.  The
guest-visible error return of the generated bindings layer (not under `src/`)
follows the spec's host-interface contract: the error is returned to the
plugin and the instance keeps running. -/

/-- The per-plugin data `context.rs` consults before touching the store: the
declared `permissions.state` key prefixes and whether a Redis pool exists. -/
structure PluginCtx where
  statePermissions : List String
  poolConfigured : Bool

def noPoolError : RedisError := RedisError.Remote "no remote state configured"

/-- The `Rate` record returned by the rate-limit operations. -/
structure Rate where
  attempts : Int
  expiration : Int
  deriving DecidableEq

/-- The `Breaker` record returned by the breaker operations. -/
structure Breaker where
  generation : Int
  successes : Int
  failures : Int
  consecutiveSuccesses : Int
  consecutiveFailures : Int
  expiration : Int
  deriving DecidableEq

namespace PluginCtx

/-- Host `get`: permission guard, then pool, then a `GET` issued to the store. -/
def get (ctx : PluginCtx) (key : String) (st : RedisState) :
    Except RedisError (Option (List UInt8)) × RedisState :=
  match verify_redis_prefixes ctx.statePermissions key with
  | .error e => (.error e, st)
  | .ok () =>
    if ctx.poolConfigured then
      (.ok (alistGet st.raw key), { st with issued := st.issued ++ [.get key] })
    else
      (.error noPoolError, st)

/-- Host `set`: permission guard, then pool, then a `SET` issued to the store. -/
def set (ctx : PluginCtx) (key : String) (value : List UInt8) (st : RedisState) :
    Except RedisError Unit × RedisState :=
  match verify_redis_prefixes ctx.statePermissions key with
  | .error e => (.error e, st)
  | .ok () =>
    if ctx.poolConfigured then
      (.ok (), { st with raw := alistSet st.raw key value,
                         issued := st.issued ++ [.set key value] })
    else
      (.error noPoolError, st)

def delOneKey (st : RedisState) (k : String) : Nat × RedisState :=
  let present := (alistGet st.nums k).isSome || (alistGet st.raw k).isSome
    || (alistGet st.sets k).isSome
  ((if present then 1 else 0),
    { st with nums := alistDel st.nums k, raw := alistDel st.raw k,
              sets := alistDel st.sets k, ttl := alistDel st.ttl k })

def delKeys (st : RedisState) : List String → Nat × RedisState
  | [] => (0, st)
  | k :: rest =>
    let step := delOneKey st k
    let next := delKeys step.2 rest
    (step.1 + next.1, next.2)

def verifyAllKeys (perms : List String) : List String → Except RedisError Unit
  | [] => .ok ()
  | k :: rest =>
    match verify_redis_prefixes perms k with
    | .error e => .error e
    | .ok () => verifyAllKeys perms rest

/-- Host `del`: every key is checked against the permission guard in order
before a single `DEL` for all of them is issued. -/
def del (ctx : PluginCtx) (keys : List String) (st : RedisState) :
    Except RedisError Nat × RedisState :=
  match verifyAllKeys ctx.statePermissions keys with
  | .error e => (.error e, st)
  | .ok () =>
    if ctx.poolConfigured then
      let step := delKeys st keys
      (.ok step.1, { step.2 with issued := step.2.issued ++ [.del keys] })
    else
      (.error noPoolError, st)

/-- Host `incr_by`: permission guard, then pool, then an `INCRBY`. -/
def incr_by (ctx : PluginCtx) (key : String) (delta : Int) (st : RedisState) :
    Except RedisError Int × RedisState :=
  match verify_redis_prefixes ctx.statePermissions key with
  | .error e => (.error e, st)
  | .ok () =>
    if ctx.poolConfigured then
      let value := (alistGet st.nums key).getD 0 + delta
      (.ok value, { st with nums := alistSet st.nums key value,
                            issued := st.issued ++ [.incrBy key delta] })
    else
      (.error noPoolError, st)

/-- Host `incr` is `incr_by` with delta one, as in the source. -/
def incr (ctx : PluginCtx) (key : String) (st : RedisState) :
    Except RedisError Int × RedisState :=
  ctx.incr_by key 1 st

def saddValues : List String → List String → List String × Nat
  | cur, [] => (cur, 0)
  | cur, v :: rest =>
    if cur.contains v then saddValues cur rest
    else
      let next := saddValues (cur ++ [v]) rest
      (next.1, next.2 + 1)

/-- Host `sadd`: permission guard, then pool, then an `SADD`; returns the
number of values newly added to the set. -/
def sadd (ctx : PluginCtx) (key : String) (values : List String) (st : RedisState) :
    Except RedisError Nat × RedisState :=
  match verify_redis_prefixes ctx.statePermissions key with
  | .error e => (.error e, st)
  | .ok () =>
    if ctx.poolConfigured then
      let step := saddValues ((alistGet st.sets key).getD []) values
      (.ok step.2, { st with sets := alistSet st.sets key step.1,
                             issued := st.issued ++ [.sadd key values] })
    else
      (.error noPoolError, st)

/-- Host `smembers`: permission guard, then pool, then an `SMEMBERS`. -/
def smembers (ctx : PluginCtx) (key : String) (st : RedisState) :
    Except RedisError (List String) × RedisState :=
  match verify_redis_prefixes ctx.statePermissions key with
  | .error e => (.error e, st)
  | .ok () =>
    if ctx.poolConfigured then
      (.ok ((alistGet st.sets key).getD []),
        { st with issued := st.issued ++ [.smembers key] })
    else
      (.error noPoolError, st)

/-- Host `srem`: permission guard, then pool, then an `SREM`; returns the
number of members that were present and removed. -/
def srem (ctx : PluginCtx) (key : String) (values : List String) (st : RedisState) :
    Except RedisError Nat × RedisState :=
  match verify_redis_prefixes ctx.statePermissions key with
  | .error e => (.error e, st)
  | .ok () =>
    if ctx.poolConfigured then
      let cur := (alistGet st.sets key).getD []
      let removed := (values.dedup.filter (fun v => cur.contains v)).length
      (.ok removed,
        { st with sets := alistSet st.sets key (cur.filter (fun v => ¬ values.contains v)),
                  issued := st.issued ++ [.srem key values] })
    else
      (.error noPoolError, st)

/-- Host `expire`: permission guard, then the `u64 → i64` conversion (failing
with `TypeError` past `i64::MAX`), then pool, then an `EXPIRE`.  The relative
TTL countdown lives on the external store's clock, so only the issued command
is recorded. -/
def expire (ctx : PluginCtx) (key : String) (ttlSeconds : Nat) (st : RedisState) :
    Except RedisError Unit × RedisState :=
  match verify_redis_prefixes ctx.statePermissions key with
  | .error e => (.error e, st)
  | .ok () =>
    if ctx.poolConfigured then
      if ttlSeconds < 2 ^ 63 then
        (.ok (), { st with issued := st.issued ++ [.expire key (Int.ofNat ttlSeconds)] })
      else
        (.error RedisError.TypeError, st)
    else
      (.error noPoolError, st)

/-- Host `expire_at`: permission guard, then the `u64 → i64` conversion, then
pool, then an `EXPIREAT` recorded in the TTL bookkeeping. -/
def expire_at (ctx : PluginCtx) (key : String) (unixTime : Nat) (st : RedisState) :
    Except RedisError Unit × RedisState :=
  match verify_redis_prefixes ctx.statePermissions key with
  | .error e => (.error e, st)
  | .ok () =>
    if ctx.poolConfigured then
      if unixTime < 2 ^ 63 then
        (.ok (), { st with ttl := alistSet st.ttl key (Int.ofNat unixTime),
                           issued := st.issued ++ [.expireAt key (Int.ofNat unixTime)] })
      else
        (.error RedisError.TypeError, st)
    else
      (.error noPoolError, st)

/-- Host `incr_rate_limit`: permission guard, then the delta and window
positivity checks, then pool, then one invocation of the increment script at
the gateway's wall-clock timestamp `now`. -/
def incr_rate_limit (ctx : PluginCtx) (key : String) (delta window now : Int)
    (st : RedisState) : Except RedisError Rate × RedisState :=
  match verify_redis_prefixes ctx.statePermissions key with
  | .error e => (.error e, st)
  | .ok () =>
    if delta < 0 then (.error (RedisError.InvalidArgument "delta must be positive"), st)
    else if window < 0 then (.error (RedisError.InvalidArgument "window must be positive"), st)
    else if ctx.poolConfigured then
      let st1 : RedisState :=
        { st with issued := st.issued ++ [.evalScript "increment_rate_limit" key] }
      let run := increment_rate_limit_script st1 key delta window now
      (.ok ⟨run.1.1, run.1.2⟩, run.2)
    else
      (.error noPoolError, st)

/-- Host `check_rate_limit`: permission guard, then pool, then one invocation
of the check script; the reply maps to `Some` exactly when the returned
attempts value is positive. -/
def check_rate_limit (ctx : PluginCtx) (key : String) (now : Int) (st : RedisState) :
    Except RedisError (Option Rate) × RedisState :=
  match verify_redis_prefixes ctx.statePermissions key with
  | .error e => (.error e, st)
  | .ok () =>
    if ctx.poolConfigured then
      let st1 : RedisState :=
        { st with issued := st.issued ++ [.evalScript "check_rate_limit" key] }
      let run := check_rate_limit_script st1 key now
      (.ok (if run.1.1 > 0 then some ⟨run.1.1, run.1.2⟩ else none), run.2)
    else
      (.error noPoolError, st)

/-- Host `incr_breaker`: permission guard, then the three positivity checks,
then pool, then one invocation of the increment-breaker script. -/
def incr_breaker (ctx : PluginCtx) (key : String)
    (successDelta failureDelta window now : Int) (st : RedisState) :
    Except RedisError Breaker × RedisState :=
  match verify_redis_prefixes ctx.statePermissions key with
  | .error e => (.error e, st)
  | .ok () =>
    if successDelta < 0 then
      (.error (RedisError.InvalidArgument "success_delta must be positive"), st)
    else if failureDelta < 0 then
      (.error (RedisError.InvalidArgument "failure_delta must be positive"), st)
    else if window < 0 then
      (.error (RedisError.InvalidArgument "window must be positive"), st)
    else if ctx.poolConfigured then
      let st1 : RedisState :=
        { st with issued := st.issued ++ [.evalScript "increment_breaker" key] }
      let run := increment_breaker_script st1 key successDelta failureDelta window now
      (.ok ⟨run.1.1, run.1.2.1, run.1.2.2.1, run.1.2.2.2.1, run.1.2.2.2.2.1,
        run.1.2.2.2.2.2⟩, run.2)
    else
      (.error noPoolError, st)

/-- Host `check_breaker`: permission guard, then pool, then one invocation of
the check-breaker script; the reply maps to `Some` exactly when the returned
generation is positive. -/
def check_breaker (ctx : PluginCtx) (key : String) (now : Int) (st : RedisState) :
    Except RedisError (Option Breaker) × RedisState :=
  match verify_redis_prefixes ctx.statePermissions key with
  | .error e => (.error e, st)
  | .ok () =>
    if ctx.poolConfigured then
      let st1 : RedisState :=
        { st with issued := st.issued ++ [.evalScript "check_breaker" key] }
      let run := check_breaker_script st1 key now
      (.ok (if run.1.1 > 0 then
        some ⟨run.1.1, run.1.2.1, run.1.2.2.1, run.1.2.2.2.1, run.1.2.2.2.2.1,
          run.1.2.2.2.2.2⟩ else none), run.2)
    else
      (.error noPoolError, st)

end PluginCtx

/-! ### The decision accumulator of `wasm-host/src/plugin.rs`

The f64 mass components are abstracted as rationals; no claim in scope
depends on floating-point rounding. -/

/-- The `Decision` triple of the plugin SDK (accept, restrict, unknown). -/
structure Decision where
  accept : ℚ
  restrict : ℚ
  unknown : ℚ
  deriving DecidableEq

/-- The decision-relevant slice of `RequestContext`: the three mass
accumulator fields and the tag accumulator. -/
structure RequestContext where
  accept : ℚ
  restrict : ℚ
  unknown : ℚ
  tags : List String
  deriving DecidableEq

/-- `RequestContext::new` initialises the accumulator to `(0, 0, 1)` with no
tags. -/
def initial_request_context : RequestContext := ⟨0, 0, 1, []⟩

/-- `set_decision` of `wasm-host/src/plugin.rs`: the source assigns the three
components unconditionally — it has no validation and no error return (the
validation is a `TODO` in the source). -/
def set_decision (ctx : RequestContext) (accept restrict unknown : ℚ) : RequestContext :=
  { ctx with accept := accept, restrict := restrict, unknown := unknown }

/-- `set_tags` of `wasm-host/src/plugin.rs`: replaces the tag accumulator. -/
def set_tags (ctx : RequestContext) (tags : List String) : RequestContext :=
  { ctx with tags := tags }

/-- One host call made by a running guest module, as far as the decision and
tag accumulators are concerned; every other capability call leaves them
untouched. -/
inductive HostCall where
  | setDecisionCall (accept restrict unknown : ℚ)
  | setTagsCall (tags : List String)
  | otherCall
  deriving DecidableEq

def applyHostCall (ctx : RequestContext) : HostCall → RequestContext
  | .setDecisionCall a r u => set_decision ctx a r u
  | .setTagsCall ts => set_tags ctx ts
  | .otherCall => ctx

def HostCall.writesDecision : HostCall → Bool
  | .setDecisionCall _ _ _ => true
  | _ => false

/-- The last list passed to `set_tags` during a trace, or the accumulator's
starting value when the trace never calls it. -/
def lastSetTags : List HostCall → List String → List String
  | [], acc => acc
  | .setTagsCall ts :: rest, _ => lastSetTags rest ts
  | _ :: rest, acc => lastSetTags rest acc

/-- `PluginInstance::start`: run the module's entry point (a trace of host
calls starting from the fresh context) and read the decision triple and tags
out of the context. -/
def plugin_start (calls : List HostCall) : Decision × List String :=
  let ctx := calls.foldl applyHostCall initial_request_context
  (⟨ctx.accept, ctx.restrict, ctx.unknown⟩, ctx.tags)

/-! ### The orchestrator of `ext-filter/src/service.rs` -/

/-- Modelled from the spec: `Decision::combine`'s pairwise Dempster-Shafer
fusion (`bulwark_wasm_sdk`, not under `src/`), per spec 4.A. -/
def combineTwo (d1 d2 : Decision) : Decision :=
  let k := d1.accept * d2.restrict + d1.restrict * d2.accept
  if 1 ≤ k then ⟨0, 0, 1⟩
  else
    ⟨(d1.accept * d2.accept + d1.accept * d2.unknown + d1.unknown * d2.accept) / (1 - k),
     (d1.restrict * d2.restrict + d1.restrict * d2.unknown + d1.unknown * d2.restrict) / (1 - k),
     (d1.unknown * d2.unknown) / (1 - k)⟩

def ignorance : Decision := ⟨0, 0, 1⟩

/-- Modelled from the spec: the n-ary `Decision::combine` folds the pairwise
fusion over the sequence starting from the ignorance decision. -/
def combineDecisions (ds : List Decision) : Decision := ds.foldl combineTwo ignorance

/-- Modelled from the spec: `MassFunction::accepted` (`bulwark_wasm_sdk`, not
under `src/`): `accepted θ` holds iff the restrict mass is below `θ`. -/
def Decision.accepted (d : Decision) (theta : ℚ) : Bool := d.restrict < theta

/-- The observable fate of one plugin slot during `execute_plugins`:
instantiation may fail before the task is spawned; a spawned task may push a
decision with tags, panic on a fault, or be cut off by the timeout. -/
inductive PluginRunResult where
  | instantiationError
  | completed (decision : Decision) (tags : List String)
  | fault
  | timedOut
  deriving DecidableEq

/-- The decision components pushed into the shared accumulator: exactly the
plugins whose task ran to completion, in order. -/
def pushedComponents : List PluginRunResult → List (Decision × List String)
  | [] => []
  | .completed d ts :: rest => (d, ts) :: pushedComponents rest
  | _ :: rest => pushedComponents rest

/-- The de-duplicated union of tags `execute_plugins` collects into its local
`tags` set (the source then only logs it). -/
def tagUnion (runs : List PluginRunResult) : List String :=
  ((pushedComponents runs).flatMap Prod.snd).dedup

/-- How one request's orchestrator-spawned task ends: with messages emitted to
the proxy, or by panicking. -/
inductive TaskOutcome (α : Type) where
  | completed (value : α)
  | panicked (message : String)
  deriving DecidableEq

/-- `execute_plugins` of `service.rs`: each plugin is instantiated with an
`unwrap` — any instantiation error panics the whole orchestrator task.
Otherwise completed tasks push their components, faulted and timed-out tasks
are logged and skipped at the join, and the pushed decisions are combined.
The collected tag union is dropped: only the combined `Decision` is
returned. -/
def execute_plugins (runs : List PluginRunResult) : TaskOutcome Decision :=
  if runs.contains .instantiationError then
    .panicked "called Result::unwrap on an Err value"
  else
    .completed (combineDecisions ((pushedComponents runs).map Prod.fst))

/-- The payload of an annotation header, kept abstract: `serialize_decision_sfv`
and `serialize_tags_sfv` live in the ext-filter crate outside `src/`. -/
inductive HeaderContent where
  | decisionSfv (decision : Decision)
  | tagsSfv (tags : List String)
  | plain (value : String)
  deriving DecidableEq

/-- The messages the orchestrator can emit on the processing stream. -/
inductive ProcessingResponseMsg where
  | requestHeadersMutation (headers : List (String × HeaderContent))
  | responseHeadersMutation (headers : List (String × HeaderContent))
  | immediateResponse (status : Nat) (body : String)
  deriving DecidableEq

/-- `allow_request` of `service.rs`: the request-headers mutation carries the
serialized decision, then the serialized tags only when the tag list is
non-empty. -/
def allow_request (decision : Decision) (tags : List String) :
    List (String × HeaderContent) :=
  [("Bulwark-Decision", HeaderContent.decisionSfv decision)] ++
    (if tags.isEmpty then [] else [("Bulwark-Tags", HeaderContent.tagsSfv tags)])

/-- `handle_decision` of `service.rs`: `accepted(0.5)` picks the allow path
(request-headers mutation, then the response-side annotation when the proxy
later sends response headers); otherwise an immediate 403 response. -/
def handle_decision (decision : Decision) (tags : List String)
    (responseHeadersArrived : Bool) : List ProcessingResponseMsg :=
  if decision.accepted (1 / 2) then
    [ProcessingResponseMsg.requestHeadersMutation (allow_request decision tags)] ++
      (if responseHeadersArrived then
        [ProcessingResponseMsg.responseHeadersMutation
          [("x-external-processor", HeaderContent.plain "Bulwark")]]
      else [])
  else
    [ProcessingResponseMsg.immediateResponse 403 "Bulwark says no."]

/-- The routing branch of the task spawned by `process` in `service.rs`: on a
route hit, execute the plugins and hand the combined decision to
`handle_decision` with an empty tag vector (the literal `vec![]` of the call
site); on a route miss, the source logs a match error and panics. -/
def process_route_result (routeResult : Except Unit (List PluginRunResult))
    (responseHeadersArrived : Bool) : TaskOutcome (List ProcessingResponseMsg) :=
  match routeResult with
  | .ok runs =>
    match execute_plugins runs with
    | .panicked m => .panicked m
    | .completed combined =>
      .completed (handle_decision combined [] responseHeadersArrived)
  | .error _ => .panicked "match error"

/-! ### Helper lemmas: key distinctness -/

theorem ne_of_length_ne {s t : String} (h : s.length ≠ t.length) : s ≠ t :=
  fun heq => h (congrArg String.length heq)

theorem string_append_right_ne (s t k : String) (h : s ≠ t) : s ++ k ≠ t ++ k := by
  intro heq
  apply h
  have hd : s.data ++ k.data = t.data ++ k.data := by
    have hq := congrArg String.data heq
    cases s; cases t; cases k
    simpa [String.instAppend, String.append] using hq
  have hst : s.data = t.data := List.append_cancel_right hd
  cases s; cases t
  exact congrArg String.mk hst

theorem rl_counter_ne_expiration (k : String) : rlCounterKey k ≠ rlExpirationKey k := by
  apply ne_of_length_ne
  simp only [rlCounterKey, rlExpirationKey, String.length_append]
  have h1 : (":exp" : String).length = 4 := rfl
  omega

theorem bk_g_ne_s (k : String) : bkGenerationKey k ≠ bkSuccessKey k :=
  string_append_right_ne _ _ _ (by decide)

theorem bk_g_ne_f (k : String) : bkGenerationKey k ≠ bkFailureKey k :=
  string_append_right_ne _ _ _ (by decide)

theorem bk_s_ne_f (k : String) : bkSuccessKey k ≠ bkFailureKey k :=
  string_append_right_ne _ _ _ (by decide)

theorem bk_cs_ne_cf (k : String) : bkConsecSuccessKey k ≠ bkConsecFailureKey k :=
  string_append_right_ne _ _ _ (by decide)

theorem bk_g_ne_cs (k : String) : bkGenerationKey k ≠ bkConsecSuccessKey k := by
  apply ne_of_length_ne
  simp only [bkGenerationKey, bkConsecSuccessKey, String.length_append]
  have h1 : ("bulwark:bk:g:" : String).length = 13 := rfl
  have h2 : ("bulwark:bk:cs:" : String).length = 14 := rfl
  omega

theorem bk_g_ne_cf (k : String) : bkGenerationKey k ≠ bkConsecFailureKey k := by
  apply ne_of_length_ne
  simp only [bkGenerationKey, bkConsecFailureKey, String.length_append]
  have h1 : ("bulwark:bk:g:" : String).length = 13 := rfl
  have h2 : ("bulwark:bk:cf:" : String).length = 14 := rfl
  omega

theorem bk_s_ne_cs (k : String) : bkSuccessKey k ≠ bkConsecSuccessKey k := by
  apply ne_of_length_ne
  simp only [bkSuccessKey, bkConsecSuccessKey, String.length_append]
  have h1 : ("bulwark:bk:s:" : String).length = 13 := rfl
  have h2 : ("bulwark:bk:cs:" : String).length = 14 := rfl
  omega

theorem bk_s_ne_cf (k : String) : bkSuccessKey k ≠ bkConsecFailureKey k := by
  apply ne_of_length_ne
  simp only [bkSuccessKey, bkConsecFailureKey, String.length_append]
  have h1 : ("bulwark:bk:s:" : String).length = 13 := rfl
  have h2 : ("bulwark:bk:cf:" : String).length = 14 := rfl
  omega

theorem bk_f_ne_cs (k : String) : bkFailureKey k ≠ bkConsecSuccessKey k := by
  apply ne_of_length_ne
  simp only [bkFailureKey, bkConsecSuccessKey, String.length_append]
  have h1 : ("bulwark:bk:f:" : String).length = 13 := rfl
  have h2 : ("bulwark:bk:cs:" : String).length = 14 := rfl
  omega

theorem bk_f_ne_cf (k : String) : bkFailureKey k ≠ bkConsecFailureKey k := by
  apply ne_of_length_ne
  simp only [bkFailureKey, bkConsecFailureKey, String.length_append]
  have h1 : ("bulwark:bk:f:" : String).length = 13 := rfl
  have h2 : ("bulwark:bk:cf:" : String).length = 14 := rfl
  omega

theorem bk_g_ne_exp (k : String) : bkGenerationKey k ≠ bkExpirationKey k := by
  apply ne_of_length_ne
  simp only [bkGenerationKey, bkExpirationKey, String.length_append]
  have h1 : ("bulwark:bk:g:" : String).length = 13 := rfl
  have h2 : ("bulwark:bk:" : String).length = 11 := rfl
  have h3 : (":exp" : String).length = 4 := rfl
  omega

theorem bk_s_ne_exp (k : String) : bkSuccessKey k ≠ bkExpirationKey k := by
  apply ne_of_length_ne
  simp only [bkSuccessKey, bkExpirationKey, String.length_append]
  have h1 : ("bulwark:bk:s:" : String).length = 13 := rfl
  have h2 : ("bulwark:bk:" : String).length = 11 := rfl
  have h3 : (":exp" : String).length = 4 := rfl
  omega

theorem bk_f_ne_exp (k : String) : bkFailureKey k ≠ bkExpirationKey k := by
  apply ne_of_length_ne
  simp only [bkFailureKey, bkExpirationKey, String.length_append]
  have h1 : ("bulwark:bk:f:" : String).length = 13 := rfl
  have h2 : ("bulwark:bk:" : String).length = 11 := rfl
  have h3 : (":exp" : String).length = 4 := rfl
  omega

theorem bk_cs_ne_exp (k : String) : bkConsecSuccessKey k ≠ bkExpirationKey k := by
  apply ne_of_length_ne
  simp only [bkConsecSuccessKey, bkExpirationKey, String.length_append]
  have h1 : ("bulwark:bk:cs:" : String).length = 14 := rfl
  have h2 : ("bulwark:bk:" : String).length = 11 := rfl
  have h3 : (":exp" : String).length = 4 := rfl
  omega

theorem bk_cf_ne_exp (k : String) : bkConsecFailureKey k ≠ bkExpirationKey k := by
  apply ne_of_length_ne
  simp only [bkConsecFailureKey, bkExpirationKey, String.length_append]
  have h1 : ("bulwark:bk:cf:" : String).length = 14 := rfl
  have h2 : ("bulwark:bk:" : String).length = 11 := rfl
  have h3 : (":exp" : String).length = 4 := rfl
  omega

/-! ### Claim theorems -/

/-- C2: the claim says a `set_decision` call with a component outside `[0,1]`
or a sum away from 1 fails with `MalformedDecision` and leaves the accumulator
unchanged.  The source's `set_decision` has no validation and no error return;
at the malformed input `(2, -1, 0)` it overwrites the accumulator. -/
theorem c2_set_decision_stores_malformed :
    set_decision initial_request_context 2 (-1) 0
      = { accept := 2, restrict := -1, unknown := 0, tags := [] } ∧
    initial_request_context
      = { accept := 0, restrict := 0, unknown := 1, tags := [] } := by
  constructor <;> rfl

/-- C3: the claim says a route miss closes the stream cleanly and the
orchestrator task does not terminate abnormally; the source logs a match error
and then panics the spawned task. -/
theorem c3_route_miss_panics :
    process_route_result (Except.error ()) false = TaskOutcome.panicked "match error" ∧
    process_route_result (Except.error ()) true = TaskOutcome.panicked "match error" := by
  constructor <;> rfl

/-- The ignorance decision is a left identity of the pairwise fusion, so a
plugin that contributes no entry to the decision vector contributes exactly
the ignorance decision to the combined result. -/
theorem combineTwo_ignorance (d : Decision) : combineTwo ignorance d = d := by
  simp [combineTwo, ignorance]

/-- C4: faulted and timed-out plugins are skipped at the join (equivalently,
they contribute the combination identity `(0,0,1)`), but a plugin whose
instantiation fails hits the `unwrap` in `execute_plugins` and panics the
whole orchestrator task, contrary to the claim. -/
theorem c4_instantiation_error_panics_orchestrator :
    execute_plugins [PluginRunResult.completed ⟨1, 0, 0⟩ [], PluginRunResult.fault]
      = TaskOutcome.completed ⟨1, 0, 0⟩ ∧
    execute_plugins [PluginRunResult.completed ⟨1, 0, 0⟩ [], PluginRunResult.timedOut]
      = TaskOutcome.completed ⟨1, 0, 0⟩ ∧
    execute_plugins [PluginRunResult.completed ⟨1, 0, 0⟩ [],
        PluginRunResult.instantiationError]
      = TaskOutcome.panicked "called Result::unwrap on an Err value" := by
  have hid : combineDecisions [(⟨1, 0, 0⟩ : Decision)] = ⟨1, 0, 0⟩ := by
    simp [combineDecisions, combineTwo_ignorance]
  refine ⟨?_, ?_, rfl⟩
  · show TaskOutcome.completed (combineDecisions [⟨1, 0, 0⟩])
      = TaskOutcome.completed ⟨1, 0, 0⟩
    rw [hid]
  · show TaskOutcome.completed (combineDecisions [⟨1, 0, 0⟩])
      = TaskOutcome.completed ⟨1, 0, 0⟩
    rw [hid]

/-- C5: a plugin completes with an accepting decision and the non-empty tag
set `{"evil-bit"}`; the tag union `execute_plugins` computes is non-empty, yet
the emitted request-headers mutation carries only the decision header, because
the call site hands `handle_decision` the literal empty tag vector. -/
theorem c5_tag_union_dropped :
    tagUnion [PluginRunResult.completed ⟨1, 0, 0⟩ ["evil-bit"]] = ["evil-bit"] ∧
    process_route_result
        (Except.ok [PluginRunResult.completed ⟨1, 0, 0⟩ ["evil-bit"]]) false
      = TaskOutcome.completed
          [ProcessingResponseMsg.requestHeadersMutation
            [("Bulwark-Decision", HeaderContent.decisionSfv ⟨1, 0, 0⟩)]] := by
  constructor
  · decide
  · have hrun : execute_plugins [PluginRunResult.completed ⟨1, 0, 0⟩ ["evil-bit"]]
        = TaskOutcome.completed ⟨1, 0, 0⟩ := by
      show TaskOutcome.completed (combineDecisions [⟨1, 0, 0⟩])
        = TaskOutcome.completed ⟨1, 0, 0⟩
      rw [show combineDecisions [(⟨1, 0, 0⟩ : Decision)] = ⟨1, 0, 0⟩ by
        simp [combineDecisions, combineTwo_ignorance]]
    simp only [process_route_result, hrun]
    norm_num [handle_decision, Decision.accepted, allow_request]

/-- C7 counterexample: `incr_rate_limit("k", 0, 60)` at `t = 1000` records
attempts 0 with expiration 1060; `check_rate_limit("k")` at `t = 1050`
satisfies `now ≤ expiration`, yet the host returns `None` because the recorded
attempts value is not positive — refuting the claim's "if and only if". -/
theorem c7_counterexample :
    (PluginCtx.incr_rate_limit ⟨["k"], true⟩ "k" 0 60 1000 RedisState.empty).1
      = Except.ok ⟨0, 1060⟩ ∧
    (PluginCtx.check_rate_limit ⟨["k"], true⟩ "k" 1050
        (PluginCtx.incr_rate_limit ⟨["k"], true⟩ "k" 0 60 1000 RedisState.empty).2).1
      = Except.ok none := by
  refine ⟨by decide, by decide⟩

/-- C8: in the `wasm-host` script registry, the increment script stores the
expiration under `rl:k:ex` while the check script reads `rl:k:exp`, so a check
within the window after an increment observes no expiration and reports
`{nil, nil}`.  The `host`-crate registry uses `:exp` on both paths and does
observe it. -/
theorem c8_expiration_suffix_mismatch :
    (wh_increment_rate_limit_script RedisState.empty "k" 1 60 1000).1 = (1, 1060) ∧
    alistGet (wh_increment_rate_limit_script RedisState.empty "k" 1 60 1000).2.nums
      "rl:k:ex" = some 1060 ∧
    alistGet (wh_increment_rate_limit_script RedisState.empty "k" 1 60 1000).2.nums
      "rl:k:exp" = none ∧
    (wh_check_rate_limit_script
        (wh_increment_rate_limit_script RedisState.empty "k" 1 60 1000).2 "k" 1050).1
      = (none, none) ∧
    (check_rate_limit_script
        (increment_rate_limit_script RedisState.empty "k" 1 60 1000).2 "k" 1050).1
      = (1, 1060) := by
  refine ⟨by decide, by decide, by decide, by decide, by decide⟩

/-- C1: for every remote-state operation and every key no declared state
prefix starts, the call returns `Permission(key)` and leaves the store — spy
log included — untouched, so no store operation is issued; the error is
returned to the plugin, which keeps running. -/
theorem c1_state_permission_denial (ctx : PluginCtx) (key : String) (st : RedisState)
    (h : ctx.statePermissions.any (fun p => strStartsWith key p) = false) :
    ctx.get key st = (Except.error (RedisError.Permission key), st) ∧
    (∀ value, ctx.set key value st = (Except.error (RedisError.Permission key), st)) ∧
    ctx.del [key] st = (Except.error (RedisError.Permission key), st) ∧
    ctx.incr key st = (Except.error (RedisError.Permission key), st) ∧
    (∀ delta, ctx.incr_by key delta st
      = (Except.error (RedisError.Permission key), st)) ∧
    (∀ values, ctx.sadd key values st
      = (Except.error (RedisError.Permission key), st)) ∧
    (∀ values, ctx.srem key values st
      = (Except.error (RedisError.Permission key), st)) ∧
    ctx.smembers key st = (Except.error (RedisError.Permission key), st) ∧
    (∀ ttlSeconds, ctx.expire key ttlSeconds st
      = (Except.error (RedisError.Permission key), st)) ∧
    (∀ unixTime, ctx.expire_at key unixTime st
      = (Except.error (RedisError.Permission key), st)) ∧
    (∀ delta window now, ctx.incr_rate_limit key delta window now st
      = (Except.error (RedisError.Permission key), st)) ∧
    (∀ now, ctx.check_rate_limit key now st
      = (Except.error (RedisError.Permission key), st)) ∧
    (∀ sd fd window now, ctx.incr_breaker key sd fd window now st
      = (Except.error (RedisError.Permission key), st)) ∧
    (∀ now, ctx.check_breaker key now st
      = (Except.error (RedisError.Permission key), st)) := by
  have hv : verify_redis_prefixes ctx.statePermissions key
      = Except.error (RedisError.Permission key) := by
    simp [verify_redis_prefixes, h]
  simp [PluginCtx.get, PluginCtx.set, PluginCtx.del, PluginCtx.incr, PluginCtx.incr_by,
    PluginCtx.sadd, PluginCtx.srem, PluginCtx.smembers, PluginCtx.expire,
    PluginCtx.expire_at, PluginCtx.incr_rate_limit, PluginCtx.check_rate_limit,
    PluginCtx.incr_breaker, PluginCtx.check_breaker, PluginCtx.verifyAllKeys, hv]

/-- Witness for C1 at the spec's scenario: declared prefix `foo:`, key
`bar:x`. -/
theorem c1_witness :
    (["foo:"].any (fun p => strStartsWith "bar:x" p) = false) ∧
    PluginCtx.get ⟨["foo:"], true⟩ "bar:x" RedisState.empty
      = (Except.error (RedisError.Permission "bar:x"), RedisState.empty) ∧
    PluginCtx.incr_rate_limit ⟨["foo:"], true⟩ "bar:x" 1 60 1000 RedisState.empty
      = (Except.error (RedisError.Permission "bar:x"), RedisState.empty) := by
  obtain ⟨h1, h2, h3, h4, h5, h6, h7, h8, h9, h10, h11, h12, h13, h14⟩ :=
    c1_state_permission_denial ⟨["foo:"], true⟩ "bar:x" RedisState.empty (by decide)
  exact ⟨by decide, h1, h11 1 60 1000⟩

/-- C6: on a successful `incr_rate_limit(key, delta, window)` at time `now`:
if no expiration is recorded or `now` is strictly past it, the counter resets
and the call returns `(delta, now + window)` with both values stored;
otherwise — including when `now` equals the recorded expiration exactly — no
reset occurs and the call returns the old counter plus `delta` together with
the recorded expiration. -/
theorem c6_incr_rate_limit_semantics (ctx : PluginCtx) (st : RedisState) (key : String)
    (delta window now : Int)
    (hperm : verify_redis_prefixes ctx.statePermissions key = Except.ok ())
    (hpool : ctx.poolConfigured = true)
    (hdelta : 0 ≤ delta) (hwindow : 0 ≤ window) :
    ((alistGet st.nums (rlExpirationKey key) = none ∨
        (∃ e, alistGet st.nums (rlExpirationKey key) = some e ∧ e < now)) →
      (ctx.incr_rate_limit key delta window now st).1
        = Except.ok ⟨delta, now + window⟩ ∧
      alistGet (ctx.incr_rate_limit key delta window now st).2.nums (rlCounterKey key)
        = some delta ∧
      alistGet (ctx.incr_rate_limit key delta window now st).2.nums (rlExpirationKey key)
        = some (now + window)) ∧
    (∀ e, alistGet st.nums (rlExpirationKey key) = some e → now ≤ e →
      (ctx.incr_rate_limit key delta window now st).1
        = Except.ok ⟨(alistGet st.nums (rlCounterKey key)).getD 0 + delta, e⟩) := by
  have hd : ¬ delta < 0 := not_lt.mpr hdelta
  have hw : ¬ window < 0 := not_lt.mpr hwindow
  have hne := rl_counter_ne_expiration key
  constructor
  · intro hcase
    rcases hcase with hnone | ⟨e, he, hlt⟩
    · simp [PluginCtx.incr_rate_limit, hperm, hpool, hd, hw,
        increment_rate_limit_script, hnone, alistGet_set, hne]
    · simp [PluginCtx.incr_rate_limit, hperm, hpool, hd, hw,
        increment_rate_limit_script, he, hlt, alistGet_set, hne]
  · intro e he hle
    have hnotlt : ¬ now > e := not_lt.mpr hle
    simp [PluginCtx.incr_rate_limit, hperm, hpool, hd, hw,
      increment_rate_limit_script, he, hnotlt, alistGet_set, hne]

/-- Witness for C6: a reset increment on an empty store at `t = 1000`, and a
boundary increment at `t = 1060` against a recorded expiration of exactly
1060, which does not reset. -/
theorem c6_witness :
    (PluginCtx.incr_rate_limit ⟨["k"], true⟩ "k" 1 60 1000 RedisState.empty).1
      = Except.ok ⟨1, 1060⟩ ∧
    (PluginCtx.incr_rate_limit ⟨["k"], true⟩ "k" 2 60 1060
        (PluginCtx.incr_rate_limit ⟨["k"], true⟩ "k" 1 60 1000 RedisState.empty).2).1
      = Except.ok ⟨3, 1060⟩ := by
  constructor
  · have h := (c6_incr_rate_limit_semantics ⟨["k"], true⟩ RedisState.empty "k" 1 60 1000
      (by decide) rfl (by decide) (by decide)).1 (Or.inl (by decide))
    exact h.1.trans (by decide)
  · have h := (c6_incr_rate_limit_semantics ⟨["k"], true⟩
      (PluginCtx.incr_rate_limit ⟨["k"], true⟩ "k" 1 60 1000 RedisState.empty).2
      "k" 2 60 1060 (by decide) rfl (by decide) (by decide)).2 1060 (by decide) (by decide)
    exact h.trans (by decide)

/-- C7 as amended: a successful `check_rate_limit(key)` at time `now` returns
`Some(attempts, expiration)` iff the recorded attempts value is positive and
`now ≤ expiration`; when `now` is past the expiration it returns `None` and
deletes both keys; when the attempts value is not positive within the window
it returns `None` without deleting anything. -/
theorem c7_check_rate_limit_semantics (ctx : PluginCtx) (st : RedisState) (key : String)
    (now : Int)
    (hperm : verify_redis_prefixes ctx.statePermissions key = Except.ok ())
    (hpool : ctx.poolConfigured = true) :
    (now ≤ (alistGet st.nums (rlExpirationKey key)).getD 0 →
      0 < (alistGet st.nums (rlCounterKey key)).getD 0 →
      (ctx.check_rate_limit key now st).1
        = Except.ok (some ⟨(alistGet st.nums (rlCounterKey key)).getD 0,
            (alistGet st.nums (rlExpirationKey key)).getD 0⟩) ∧
      (ctx.check_rate_limit key now st).2.nums = st.nums) ∧
    (now ≤ (alistGet st.nums (rlExpirationKey key)).getD 0 →
      (alistGet st.nums (rlCounterKey key)).getD 0 ≤ 0 →
      (ctx.check_rate_limit key now st).1 = Except.ok none ∧
      (ctx.check_rate_limit key now st).2.nums = st.nums) ∧
    ((alistGet st.nums (rlExpirationKey key)).getD 0 < now →
      (ctx.check_rate_limit key now st).1 = Except.ok none ∧
      alistGet (ctx.check_rate_limit key now st).2.nums (rlCounterKey key) = none ∧
      alistGet (ctx.check_rate_limit key now st).2.nums (rlExpirationKey key) = none) := by
  have hne := rl_counter_ne_expiration key
  have hne' := (rl_counter_ne_expiration key).symm
  refine ⟨?_, ?_, ?_⟩
  · intro hle hpos
    have hnotlt : ¬ now > (alistGet st.nums (rlExpirationKey key)).getD 0 :=
      not_lt.mpr hle
    have hnotle : ¬ (alistGet st.nums (rlCounterKey key)).getD 0 ≤ 0 :=
      not_le.mpr hpos
    simp [PluginCtx.check_rate_limit, hperm, hpool, check_rate_limit_script,
      hnotlt, hpos, alistGet_del, hne, hne']
  · intro hle hnonpos
    have hnotlt : ¬ now > (alistGet st.nums (rlExpirationKey key)).getD 0 :=
      not_lt.mpr hle
    have hnotpos : ¬ 0 < (alistGet st.nums (rlCounterKey key)).getD 0 :=
      not_lt.mpr hnonpos
    simp [PluginCtx.check_rate_limit, hperm, hpool, check_rate_limit_script,
      hnotlt, hnotpos, alistGet_del, hne, hne']
  · intro hlt
    simp [PluginCtx.check_rate_limit, hperm, hpool, check_rate_limit_script,
      hlt, alistGet_del, hne, hne']

/-- Witness for C7 through the spec's scenario 6: increments at `t = 1000` and
`t = 1030` yield `(1, 1060)` and `(3, 1060)`; the check at `t = 1050` returns
`Some(3, 1060)`; the check at `t = 1061` returns `None` and clears both
keys. -/
theorem c7_witness :
    (PluginCtx.incr_rate_limit ⟨["k"], true⟩ "k" 1 60 1000 RedisState.empty).1
      = Except.ok ⟨1, 1060⟩ ∧
    (PluginCtx.incr_rate_limit ⟨["k"], true⟩ "k" 2 60 1030
        (PluginCtx.incr_rate_limit ⟨["k"], true⟩ "k" 1 60 1000 RedisState.empty).2).1
      = Except.ok ⟨3, 1060⟩ ∧
    (PluginCtx.check_rate_limit ⟨["k"], true⟩ "k" 1050
        (PluginCtx.incr_rate_limit ⟨["k"], true⟩ "k" 2 60 1030
          (PluginCtx.incr_rate_limit ⟨["k"], true⟩ "k" 1 60 1000
            RedisState.empty).2).2).1
      = Except.ok (some ⟨3, 1060⟩) ∧
    (PluginCtx.check_rate_limit ⟨["k"], true⟩ "k" 1061
        (PluginCtx.incr_rate_limit ⟨["k"], true⟩ "k" 2 60 1030
          (PluginCtx.incr_rate_limit ⟨["k"], true⟩ "k" 1 60 1000
            RedisState.empty).2).2).1
      = Except.ok none ∧
    alistGet (PluginCtx.check_rate_limit ⟨["k"], true⟩ "k" 1061
        (PluginCtx.incr_rate_limit ⟨["k"], true⟩ "k" 2 60 1030
          (PluginCtx.incr_rate_limit ⟨["k"], true⟩ "k" 1 60 1000
            RedisState.empty).2).2).2.nums (rlCounterKey "k") = none := by
  refine ⟨by decide, by decide, ?_, ?_, ?_⟩
  · have h := ((c7_check_rate_limit_semantics ⟨["k"], true⟩
      (PluginCtx.incr_rate_limit ⟨["k"], true⟩ "k" 2 60 1030
        (PluginCtx.incr_rate_limit ⟨["k"], true⟩ "k" 1 60 1000 RedisState.empty).2).2
      "k" 1050 (by decide) rfl).1 (by decide) (by decide)).1
    exact h.trans (by decide)
  · have h := ((c7_check_rate_limit_semantics ⟨["k"], true⟩
      (PluginCtx.incr_rate_limit ⟨["k"], true⟩ "k" 2 60 1030
        (PluginCtx.incr_rate_limit ⟨["k"], true⟩ "k" 1 60 1000 RedisState.empty).2).2
      "k" 1061 (by decide) rfl).2.2 (by decide)).1
    exact h
  · have h := ((c7_check_rate_limit_semantics ⟨["k"], true⟩
      (PluginCtx.incr_rate_limit ⟨["k"], true⟩ "k" 2 60 1030
        (PluginCtx.incr_rate_limit ⟨["k"], true⟩ "k" 1 60 1000 RedisState.empty).2).2
      "k" 1061 (by decide) rfl).2.2 (by decide)).2.1
    exact h

/-- C9 counterexample: after `incr_breaker("k", 1, 0, 60)` the
consecutive-success counter is 1; a subsequent `incr_breaker("k", 0, 0, 60)` —
both deltas zero, claimed to change no counter — resets it to 0. -/
theorem c9_counterexample :
    alistGet (PluginCtx.incr_breaker ⟨["k"], true⟩ "k" 1 0 60 1000
        RedisState.empty).2.nums (bkConsecSuccessKey "k") = some 1 ∧
    alistGet (PluginCtx.incr_breaker ⟨["k"], true⟩ "k" 0 0 60 1010
        (PluginCtx.incr_breaker ⟨["k"], true⟩ "k" 1 0 60 1000
          RedisState.empty).2).2.nums (bkConsecSuccessKey "k") = some 0 ∧
    (PluginCtx.incr_breaker ⟨["k"], true⟩ "k" 0 0 60 1010
        (PluginCtx.incr_breaker ⟨["k"], true⟩ "k" 1 0 60 1000
          RedisState.empty).2).1
      = Except.ok ⟨2, 1, 0, 0, 0, 1070⟩ := by
  refine ⟨by decide, by decide, by decide⟩

/-- C9 as amended: on every successful `incr_breaker` the generation rises by
exactly one and the expiration is refreshed to `now + window`.  When
`success_delta > 0`, successes and consecutive-successes rise by it and
consecutive-failures resets to 0.  When `success_delta = 0`, the failure
branch runs — even when `failure_delta` is also 0 — so failures and
consecutive-failures rise by `failure_delta` (a no-change when it is 0) and
the consecutive-success counter is reset to 0. -/
theorem c9_incr_breaker_semantics (ctx : PluginCtx) (st : RedisState) (key : String)
    (sd fd window now : Int)
    (hperm : verify_redis_prefixes ctx.statePermissions key = Except.ok ())
    (hpool : ctx.poolConfigured = true)
    (hsd : 0 ≤ sd) (hfd : 0 ≤ fd) (hwindow : 0 ≤ window) :
    (0 < sd →
      (ctx.incr_breaker key sd fd window now st).1
        = Except.ok ⟨(alistGet st.nums (bkGenerationKey key)).getD 0 + 1,
            (alistGet st.nums (bkSuccessKey key)).getD 0 + sd,
            (alistGet st.nums (bkFailureKey key)).getD 0,
            (alistGet st.nums (bkConsecSuccessKey key)).getD 0 + sd,
            0, now + window⟩ ∧
      alistGet (ctx.incr_breaker key sd fd window now st).2.nums
        (bkConsecFailureKey key) = some 0) ∧
    (sd = 0 →
      (ctx.incr_breaker key sd fd window now st).1
        = Except.ok ⟨(alistGet st.nums (bkGenerationKey key)).getD 0 + 1,
            (alistGet st.nums (bkSuccessKey key)).getD 0,
            (alistGet st.nums (bkFailureKey key)).getD 0 + fd,
            0,
            (alistGet st.nums (bkConsecFailureKey key)).getD 0 + fd,
            now + window⟩ ∧
      alistGet (ctx.incr_breaker key sd fd window now st).2.nums
        (bkConsecSuccessKey key) = some 0 ∧
      alistGet (ctx.incr_breaker key sd fd window now st).2.nums (bkSuccessKey key)
        = alistGet st.nums (bkSuccessKey key)) ∧
    alistGet (ctx.incr_breaker key sd fd window now st).2.nums (bkGenerationKey key)
      = some ((alistGet st.nums (bkGenerationKey key)).getD 0 + 1) ∧
    alistGet (ctx.incr_breaker key sd fd window now st).2.nums (bkExpirationKey key)
      = some (now + window) := by
  have hs : ¬ sd < 0 := not_lt.mpr hsd
  have hf : ¬ fd < 0 := not_lt.mpr hfd
  have hw : ¬ window < 0 := not_lt.mpr hwindow
  have h1 := bk_g_ne_s key
  have h2 := bk_g_ne_f key
  have h3 := bk_s_ne_f key
  have h4 := bk_cs_ne_cf key
  have h5 := bk_g_ne_cs key
  have h6 := bk_g_ne_cf key
  have h7 := bk_s_ne_cs key
  have h8 := bk_s_ne_cf key
  have h9 := bk_f_ne_cs key
  have h10 := bk_f_ne_cf key
  have h11 := bk_g_ne_exp key
  have h12 := bk_s_ne_exp key
  have h13 := bk_f_ne_exp key
  have h14 := bk_cs_ne_exp key
  have h15 := bk_cf_ne_exp key
  refine ⟨?_, ?_, ?_, ?_⟩
  · intro hpos
    simp [PluginCtx.incr_breaker, hperm, hpool, hs, hf, hw,
      increment_breaker_script, hpos, alistGet_set,
      h1, h2, h3, h4, h5, h6, h7, h8, h9, h10, h11, h12, h13, h14, h15,
      h1.symm, h2.symm, h3.symm, h4.symm, h5.symm, h6.symm, h7.symm, h8.symm,
      h9.symm, h10.symm, h11.symm, h12.symm, h13.symm, h14.symm, h15.symm]
  · intro hzero
    subst hzero
    simp [PluginCtx.incr_breaker, hperm, hpool, hs, hf, hw,
      increment_breaker_script, alistGet_set,
      h1, h2, h3, h4, h5, h6, h7, h8, h9, h10, h11, h12, h13, h14, h15,
      h1.symm, h2.symm, h3.symm, h4.symm, h5.symm, h6.symm, h7.symm, h8.symm,
      h9.symm, h10.symm, h11.symm, h12.symm, h13.symm, h14.symm, h15.symm]
  · by_cases hpos : 0 < sd
    · simp [PluginCtx.incr_breaker, hperm, hpool, hs, hf, hw,
        increment_breaker_script, hpos, alistGet_set,
        h1, h2, h3, h4, h5, h6, h7, h8, h9, h10, h11, h12, h13, h14, h15,
        h1.symm, h2.symm, h3.symm, h4.symm, h5.symm, h6.symm, h7.symm, h8.symm,
        h9.symm, h10.symm, h11.symm, h12.symm, h13.symm, h14.symm, h15.symm]
    · simp [PluginCtx.incr_breaker, hperm, hpool, hs, hf, hw,
        increment_breaker_script, hpos, alistGet_set,
        h1, h2, h3, h4, h5, h6, h7, h8, h9, h10, h11, h12, h13, h14, h15,
        h1.symm, h2.symm, h3.symm, h4.symm, h5.symm, h6.symm, h7.symm, h8.symm,
        h9.symm, h10.symm, h11.symm, h12.symm, h13.symm, h14.symm, h15.symm]
  · by_cases hpos : 0 < sd
    · simp [PluginCtx.incr_breaker, hperm, hpool, hs, hf, hw,
        increment_breaker_script, hpos, alistGet_set,
        h1, h2, h3, h4, h5, h6, h7, h8, h9, h10, h11, h12, h13, h14, h15,
        h1.symm, h2.symm, h3.symm, h4.symm, h5.symm, h6.symm, h7.symm, h8.symm,
        h9.symm, h10.symm, h11.symm, h12.symm, h13.symm, h14.symm, h15.symm]
    · simp [PluginCtx.incr_breaker, hperm, hpool, hs, hf, hw,
        increment_breaker_script, hpos, alistGet_set,
        h1, h2, h3, h4, h5, h6, h7, h8, h9, h10, h11, h12, h13, h14, h15,
        h1.symm, h2.symm, h3.symm, h4.symm, h5.symm, h6.symm, h7.symm, h8.symm,
        h9.symm, h10.symm, h11.symm, h12.symm, h13.symm, h14.symm, h15.symm]

/-- Witness for C9: a success increment on an empty store, then a
zero-zero increment against the resulting store. -/
theorem c9_witness :
    (PluginCtx.incr_breaker ⟨["k"], true⟩ "k" 1 0 60 1000 RedisState.empty).1
      = Except.ok ⟨1, 1, 0, 1, 0, 1060⟩ ∧
    (PluginCtx.incr_breaker ⟨["k"], true⟩ "k" 0 0 60 1010
        (PluginCtx.incr_breaker ⟨["k"], true⟩ "k" 1 0 60 1000
          RedisState.empty).2).1
      = Except.ok ⟨2, 1, 0, 0, 0, 1070⟩ := by
  constructor
  · have h := ((c9_incr_breaker_semantics ⟨["k"], true⟩ RedisState.empty "k" 1 0 60 1000
      (by decide) rfl (by decide) (by decide) (by decide)).1 (by decide)).1
    exact h.trans (by decide)
  · have h := ((c9_incr_breaker_semantics ⟨["k"], true⟩
      (PluginCtx.incr_breaker ⟨["k"], true⟩ "k" 1 0 60 1000 RedisState.empty).2
      "k" 0 0 60 1010 (by decide) rfl (by decide) (by decide) (by decide)).2.1 rfl).1
    exact h.trans (by decide)

theorem foldl_applyHostCall_masses (calls : List HostCall) (ctx : RequestContext)
    (h : calls.all (fun c => ! c.writesDecision) = true) :
    (calls.foldl applyHostCall ctx).accept = ctx.accept ∧
    (calls.foldl applyHostCall ctx).restrict = ctx.restrict ∧
    (calls.foldl applyHostCall ctx).unknown = ctx.unknown := by
  induction calls generalizing ctx with
  | nil => exact ⟨rfl, rfl, rfl⟩
  | cons c rest ih =>
    rw [List.all_cons, Bool.and_eq_true] at h
    cases c with
    | setDecisionCall a r u => simp [HostCall.writesDecision] at h
    | setTagsCall ts =>
      simpa [applyHostCall, set_tags] using ih (set_tags ctx ts) h.2
    | otherCall =>
      simpa [applyHostCall] using ih ctx h.2

theorem foldl_applyHostCall_tags (calls : List HostCall) (ctx : RequestContext) :
    (calls.foldl applyHostCall ctx).tags = lastSetTags calls ctx.tags := by
  induction calls generalizing ctx with
  | nil => rfl
  | cons c rest ih =>
    cases c with
    | setDecisionCall a r u =>
      simpa [applyHostCall, lastSetTags, set_decision] using
        ih (set_decision ctx a r u)
    | setTagsCall ts =>
      simpa [applyHostCall, lastSetTags, set_tags] using ih (set_tags ctx ts)
    | otherCall =>
      simpa [applyHostCall, lastSetTags] using ih ctx

/-- C10: a module whose trace of host calls never includes `set_decision`
yields, via `PluginInstance::start`, the default decision `(0, 0, 1)` paired
with the instance's tag accumulator — the last `set_tags` argument, or the
empty list when tags were never set. -/
theorem c10_default_decision (calls : List HostCall)
    (h : calls.all (fun c => ! c.writesDecision) = true) :
    plugin_start calls = (⟨0, 0, 1⟩, lastSetTags calls []) := by
  have hm := foldl_applyHostCall_masses calls initial_request_context h
  have ht := foldl_applyHostCall_tags calls initial_request_context
  show ((⟨(calls.foldl applyHostCall initial_request_context).accept,
      (calls.foldl applyHostCall initial_request_context).restrict,
      (calls.foldl applyHostCall initial_request_context).unknown⟩ : Decision),
      (calls.foldl applyHostCall initial_request_context).tags)
    = (⟨0, 0, 1⟩, lastSetTags calls [])
  rw [hm.1, hm.2.1, hm.2.2, ht]
  rfl

/-- Witness for C10: a trace that sets tags and makes one other host call but
never writes a decision. -/
theorem c10_witness :
    plugin_start [HostCall.setTagsCall ["trusted"], HostCall.otherCall]
      = (⟨0, 0, 1⟩, ["trusted"]) := by
  exact (c10_default_decision [HostCall.setTagsCall ["trusted"], HostCall.otherCall]
    (by decide)).trans (by decide)

end Bulwark
